import Mathlib

/-!
Verification of the serverless contact-form handler
(`src/lambda_function.py`, function `lambda_handler`).

The handler is embedded shallowly: JSON values are an inductive type,
`json.loads` is a fuel-based recursive-descent parser, Python's `in`
and subscript operators on decoded JSON values are explicit functions
returning `Except PyErr`, and the handler itself is the same cascade of
checks as the source, producing a `Response` together with the list of
`put_item` calls it performed.  The nondeterministic inputs of one
invocation — the generated `uuid4` string, the captured timestamp, and
the outcome of the DynamoDB write — are passed in as an environment
`HandlerEnv`.
-/

/-- A decoded JSON value, the possible results of Python's `json.loads`.
Objects keep their members in textual order; duplicate keys are resolved
to the LAST occurrence by lookup, matching Python dict construction. -/
inductive JValue where
  | null
  | bool (b : Bool)
  | num (n : Int)
  | str (s : String)
  | arr (elems : List JValue)
  | obj (members : List (String × JValue))

/-- The Python exceptions the handler can encounter. -/
inductive PyErr where
  | typeError
  | keyError
  | valueError

/-- Left brace character, written by code to keep string literals brace-free. -/
def lbrace : Char := Char.ofNat 123

/-- Right brace character. -/
def rbrace : Char := Char.ofNat 125

/-- JSON whitespace. -/
def isJsonWs (c : Char) : Bool :=
  c = ' ' || c = '\t' || c = '\n' || c = '\r'

/-- Drop leading JSON whitespace. -/
def skipWs : List Char → List Char
  | [] => []
  | c :: rest => if isJsonWs c then skipWs rest else c :: rest

/-- Read the characters of a JSON string after the opening quote, handling
the common escapes; returns the content and the input after the closing
quote. -/
def parseStrChars : List Char → Option (List Char × List Char)
  | [] => none
  | c :: rest =>
    if c = '"' then some ([], rest)
    else if c = '\\' then
      match rest with
      | [] => none
      | e :: rest2 =>
        let esc : Option Char :=
          if e = '"' then some '"'
          else if e = '\\' then some '\\'
          else if e = '/' then some '/'
          else if e = 'n' then some '\n'
          else if e = 't' then some '\t'
          else if e = 'r' then some '\r'
          else if e = 'b' then some (Char.ofNat 8)
          else if e = 'f' then some (Char.ofNat 12)
          else none
        match esc with
        | none => none
        | some ch => (parseStrChars rest2).map (fun p => (ch :: p.1, p.2))
    else (parseStrChars rest).map (fun p => (c :: p.1, p.2))

/-- Take a maximal run of decimal digits. -/
def takeDigits : List Char → (List Char × List Char)
  | [] => ([], [])
  | c :: rest =>
    if c.isDigit then
      let p := takeDigits rest
      (c :: p.1, p.2)
    else ([], c :: rest)

/-- Numeric value of a digit run. -/
def digitsToNat (ds : List Char) : Nat :=
  ds.foldl (fun a c => a * 10 + (c.toNat - 48)) 0

/-- Parse a nonempty digit run into a `Nat`. -/
def parseNat (cs : List Char) : Option (Nat × List Char) :=
  match takeDigits cs with
  | ([], _) => none
  | (ds, rest) => some (digitsToNat ds, rest)

/-- Require the given literal characters at the head of the input. -/
def expectChars : List Char → List Char → Option (List Char)
  | [], cs => some cs
  | _ :: _, [] => none
  | e :: es, c :: cs => if c = e then expectChars es cs else none

mutual

/-- Parse one JSON value, fuel-bounded. -/
def parseVal : Nat → List Char → Option (JValue × List Char)
  | 0, _ => none
  | fuel + 1, cs0 =>
    match skipWs cs0 with
    | [] => none
    | c :: rest =>
      if c = lbrace then parseObjAfterBrace fuel rest
      else if c = '[' then parseArrAfterBracket fuel rest
      else if c = '"' then
        (parseStrChars rest).map (fun p => (JValue.str (String.mk p.1), p.2))
      else if c = 'n' then
        (expectChars ['u', 'l', 'l'] rest).map (fun r => (JValue.null, r))
      else if c = 't' then
        (expectChars ['r', 'u', 'e'] rest).map (fun r => (JValue.bool true, r))
      else if c = 'f' then
        (expectChars ['a', 'l', 's', 'e'] rest).map (fun r => (JValue.bool false, r))
      else if c = '-' then
        (parseNat rest).map (fun p => (JValue.num (-(p.1 : Int)), p.2))
      else if c.isDigit then
        (parseNat (c :: rest)).map (fun p => (JValue.num (p.1 : Int), p.2))
      else none
termination_by structural fuel _ => fuel

/-- Parse the remainder of a JSON object after its opening brace. -/
def parseObjAfterBrace : Nat → List Char → Option (JValue × List Char)
  | 0, _ => none
  | fuel + 1, cs =>
    match skipWs cs with
    | [] => none
    | d :: rest =>
      if d = rbrace then some (JValue.obj [], rest)
      else
        match parseMembers fuel (d :: rest) with
        | some (ms, rest2) => some (JValue.obj ms, rest2)
        | none => none
termination_by structural fuel _ => fuel

/-- Parse the remainder of a JSON array after its opening bracket. -/
def parseArrAfterBracket : Nat → List Char → Option (JValue × List Char)
  | 0, _ => none
  | fuel + 1, cs =>
    match skipWs cs with
    | ']' :: rest => some (JValue.arr [], rest)
    | cs2 =>
      match parseElems fuel cs2 with
      | some (vs, rest2) => some (JValue.arr vs, rest2)
      | none => none
termination_by structural fuel _ => fuel

/-- Parse a comma-separated nonempty list of array elements up to `]`. -/
def parseElems : Nat → List Char → Option (List JValue × List Char)
  | 0, _ => none
  | fuel + 1, cs =>
    match parseVal fuel cs with
    | none => none
    | some (v, rest) =>
      match skipWs rest with
      | ',' :: rest2 =>
        match parseElems fuel rest2 with
        | some (vs, rest3) => some (v :: vs, rest3)
        | none => none
      | ']' :: rest2 => some ([v], rest2)
      | _ => none
termination_by structural fuel _ => fuel

/-- Parse a comma-separated nonempty list of object members up to the
closing brace. -/
def parseMembers : Nat → List Char → Option (List (String × JValue) × List Char)
  | 0, _ => none
  | fuel + 1, cs =>
    match skipWs cs with
    | '"' :: rest =>
      match parseStrChars rest with
      | none => none
      | some (kcs, rest2) =>
        match skipWs rest2 with
        | ':' :: rest3 =>
          match parseVal fuel rest3 with
          | none => none
          | some (v, rest4) =>
            match skipWs rest4 with
            | ',' :: rest5 =>
              match parseMembers fuel rest5 with
              | some (ms, rest6) => some ((String.mk kcs, v) :: ms, rest6)
              | none => none
            | d :: rest5 =>
              if d = rbrace then some ([(String.mk kcs, v)], rest5) else none
            | _ => none
        | _ => none
    | _ => none
termination_by structural fuel _ => fuel

end

/-- Model of Python's `json.loads` on a string argument: parse one JSON
value and require only whitespace after it; any failure is the
`json.JSONDecodeError` (a `ValueError`) path. -/
def jsonLoads (s : String) : Except PyErr JValue :=
  let cs := s.data
  match parseVal (4 * cs.length + 16) cs with
  | some (v, rest) => if (skipWs rest).isEmpty then Except.ok v else Except.error PyErr.valueError
  | none => Except.error PyErr.valueError

/-- Does the key occur in a decoded dict?  Python's `k in dict`. -/
def hasKey (ms : List (String × JValue)) (k : String) : Bool :=
  ms.any (fun m => m.1 == k)

/-- Is this decoded value the given Python string?  (`==` between a `str`
and any other JSON-decoded value is `False`, never an error.) -/
def strEq (k : String) : JValue → Bool
  | JValue.str s => s == k
  | _ => false

/-- Is `pat` a leading run of `cs`? -/
def startsWithChars : List Char → List Char → Bool
  | [], _ => true
  | _ :: _, [] => false
  | a :: as, b :: bs => a = b && startsWithChars as bs

/-- Does `pat` occur as a contiguous run anywhere in the input?
Python's substring containment `pat in s`. -/
def hasSubChars (pat : List Char) : List Char → Bool
  | [] => startsWithChars pat []
  | c :: rest => startsWithChars pat (c :: rest) || hasSubChars pat rest

/-- Python's `field in body` on a decoded JSON value: key membership for a
dict, element equality for a list, substring containment for a string,
and a `TypeError` for `None`, booleans and numbers. -/
def pyIn (k : String) : JValue → Except PyErr Bool
  | JValue.obj ms => Except.ok (hasKey ms k)
  | JValue.arr vs => Except.ok (vs.any (strEq k))
  | JValue.str s => Except.ok (hasSubChars k.data s.data)
  | _ => Except.error PyErr.typeError

/-- Python's `all(field in body for field in fields)`: short-circuits on
the first `False`, propagates the first exception. -/
def allFieldsIn : List String → JValue → Except PyErr Bool
  | [], _ => Except.ok true
  | f :: fs, body =>
    match pyIn f body with
    | Except.error e => Except.error e
    | Except.ok false => Except.ok false
    | Except.ok true => allFieldsIn fs body

/-- Last-occurrence lookup in a decoded dict: `json.loads` builds a Python
dict in which a later duplicate key overwrites an earlier one. -/
def dictGetLast (ms : List (String × JValue)) (k : String) : Option JValue :=
  match ms with
  | [] => none
  | m :: rest =>
    match dictGetLast rest k with
    | some v => some v
    | none => if m.1 == k then some m.2 else none

/-- Python's `body[k]` on a decoded JSON value: dict lookup (raising
`KeyError` when absent), `TypeError` for every non-dict (string indices
and list indices must be integers; `None`/numbers are not subscriptable
by a string). -/
def pySubscript (v : JValue) (k : String) : Except PyErr JValue :=
  match v with
  | JValue.obj ms =>
    match dictGetLast ms k with
    | some x => Except.ok x
    | none => Except.error PyErr.keyError
  | _ => Except.error PyErr.typeError

/-- The Python value stored under the event's `body` key: the key may be
absent, hold `None`, or hold a string. -/
inductive BodyField where
  | absent
  | pyNone
  | pyStr (s : String)

/-- The inbound event: the `body` field, plus all the other fields of the
API-Gateway event, which the handler never reads. -/
structure Event where
  body : BodyField
  rest : List (String × String)

/-- `json.loads(event.get('body', '\x7b\x7d'))`: an absent key yields the
default literal string, a `None` value raises `TypeError` inside
`json.loads`, and a string is parsed. -/
def loadsOfBody : BodyField → Except PyErr JValue
  | BodyField.absent => jsonLoads "\x7b\x7d"
  | BodyField.pyNone => Except.error PyErr.typeError
  | BodyField.pyStr s => jsonLoads s

/-- The per-invocation environment: the generated `str(uuid.uuid4())`, the
captured `datetime.utcnow().isoformat()` timestamp, and the outcome of
the single `table.put_item` call should it be reached. -/
structure HandlerEnv where
  submission_id : String
  timestamp : String
  putResult : Except PyErr Unit

/-- An HTTP-style response as the handler builds it. -/
structure Response where
  statusCode : Nat
  headers : List (String × String)
  body : String

/-- The headers attached to every response. -/
def stdHeaders : List (String × String) :=
  [("Content-Type", "application/json"), ("Access-Control-Allow-Origin", "*")]

/-- The 400 response, body exactly `json.dumps` of the error dict. -/
def response400 : Response :=
  ⟨400, stdHeaders, "\x7b\"error\": \"Missing required fields: name, email, message\"\x7d"⟩

/-- The 200 response, body exactly `json.dumps` of the success dict. -/
def response200 : Response :=
  ⟨200, stdHeaders, "\x7b\"message\": \"Form submitted successfully!\"\x7d"⟩

/-- The 500 response, body exactly `json.dumps` of the generic error dict. -/
def response500 : Response :=
  ⟨500, stdHeaders, "\x7b\"error\": \"An internal error occurred.\"\x7d"⟩

/-- An item passed to `table.put_item`, as the key-value pairs of the dict
literal the handler builds. -/
def Item := List (String × JValue)

/-- The handler's observable outcome: the response it returns and the
`put_item` calls it issued (in order). -/
structure HResult where
  response : Response
  writes : List Item

/-- `required_fields = ['name', 'email', 'message']`. -/
def required_fields : List String := ["name", "email", "message"]

/-- Shallow embedding of `lambda_handler` (src/lambda_function.py, lines
13–78): parse the body, check that every required field is `in` it,
extract the three fields, build the five-attribute item with the
generated id and timestamp, put it, and return 200; a missing field
returns 400 before any of that; every raised exception is caught by the
top-level `except` and returns 500. -/
def lambda_handler (env : HandlerEnv) (event : Event) : HResult :=
  match loadsOfBody event.body with
  | Except.error _ => ⟨response500, []⟩
  | Except.ok body =>
    match allFieldsIn required_fields body with
    | Except.error _ => ⟨response500, []⟩
    | Except.ok false => ⟨response400, []⟩
    | Except.ok true =>
      match pySubscript body "name" with
      | Except.error _ => ⟨response500, []⟩
      | Except.ok name =>
        match pySubscript body "email" with
        | Except.error _ => ⟨response500, []⟩
        | Except.ok email =>
          match pySubscript body "message" with
          | Except.error _ => ⟨response500, []⟩
          | Except.ok message =>
            let item : Item :=
              [("id", JValue.str env.submission_id), ("name", name),
               ("email", email), ("message", message),
               ("submittedAt", JValue.str env.timestamp)]
            match env.putResult with
            | Except.error _ => ⟨response500, [item]⟩
            | Except.ok _ => ⟨response200, [item]⟩

/-- Did some step of the handler body raise?  Mirrors the cascade of
`lambda_handler`: a parse failure, a `TypeError` inside the membership
check, a failing extraction, or a failing store write. -/
def handlerRaises (env : HandlerEnv) (event : Event) : Bool :=
  match loadsOfBody event.body with
  | Except.error _ => true
  | Except.ok body =>
    match allFieldsIn required_fields body with
    | Except.error _ => true
    | Except.ok false => false
    | Except.ok true =>
      match pySubscript body "name" with
      | Except.error _ => true
      | Except.ok _ =>
        match pySubscript body "email" with
        | Except.error _ => true
        | Except.ok _ =>
          match pySubscript body "message" with
          | Except.error _ => true
          | Except.ok _ =>
            match env.putResult with
            | Except.error _ => true
            | Except.ok _ => false

/-- A successful last-occurrence lookup implies the membership test the
handler's validation performs succeeds for that key. -/
theorem hasKey_of_dictGetLast {ms : List (String × JValue)} {k : String} {v : JValue}
    (h : dictGetLast ms k = some v) : hasKey ms k = true := by
  induction ms generalizing v with
  | nil => simp [dictGetLast] at h
  | cons m rest ih =>
    rw [dictGetLast] at h
    simp only [hasKey, List.any_cons]
    cases hr : dictGetLast rest k with
    | some w =>
      have hrest := ih hr
      simp only [hasKey] at hrest
      simp [hrest]
    | none =>
      rw [hr] at h
      by_cases hm : m.1 == k
      · simp [hm]
      · rw [if_neg hm] at h
        exact absurd h (by simp)

/-- When the three required keys are present in a decoded dict, the
validation `all(field in body for field in required_fields)` succeeds. -/
theorem allFieldsIn_obj_of_keys {ms : List (String × JValue)}
    (h1 : hasKey ms "name" = true) (h2 : hasKey ms "email" = true)
    (h3 : hasKey ms "message" = true) :
    allFieldsIn required_fields (JValue.obj ms) = Except.ok true := by
  simp [allFieldsIn, required_fields, pyIn, h1, h2, h3]

/-- The whole success path: a body decoding to a dict holding the three
required keys, together with a succeeding store write, produces the 200
response and exactly one `put_item` call whose item is the five-attribute
record built from the extracted values, the generated id and the captured
timestamp. -/
theorem lambda_handler_success (env : HandlerEnv) (event : Event)
    (kvs : List (String × JValue)) (vn ve vm : JValue)
    (hb : loadsOfBody event.body = Except.ok (JValue.obj kvs))
    (hn : dictGetLast kvs "name" = some vn)
    (he : dictGetLast kvs "email" = some ve)
    (hm : dictGetLast kvs "message" = some vm)
    (hput : env.putResult = Except.ok ()) :
    lambda_handler env event =
      ⟨response200,
       [[("id", JValue.str env.submission_id), ("name", vn), ("email", ve),
         ("message", vm), ("submittedAt", JValue.str env.timestamp)]]⟩ := by
  have h1 := hasKey_of_dictGetLast hn
  have h2 := hasKey_of_dictGetLast he
  have h3 := hasKey_of_dictGetLast hm
  simp [lambda_handler, hb, allFieldsIn_obj_of_keys h1 h2 h3, pySubscript, hn, he, hm, hput]

/-- Whatever the path, the handler's response carries the fixed headers. -/
theorem lambda_handler_headers (env : HandlerEnv) (event : Event) :
    (lambda_handler env event).response.headers = stdHeaders := by
  unfold lambda_handler
  repeat' split
  all_goals rfl

/-- Subscripting any decoded value that is not a dict raises `TypeError`. -/
theorem pySubscript_nonobj {v : JValue} (hno : ∀ ms, v ≠ JValue.obj ms) (k : String) :
    pySubscript v k = Except.error PyErr.typeError := by
  cases v with
  | obj ms => exact absurd rfl (hno ms)
  | null => rfl
  | bool b => rfl
  | num n => rfl
  | str s => rfl
  | arr xs => rfl

/-- C1: for every request whose body parses to a JSON object containing
the keys `name`, `email` and `message`, and whose store write succeeds,
the handler returns status 200 with the fixed success body and performs
exactly one store write, whose record carries the three input values, an
`id` equal to the generated identifier, and a `submittedAt` equal to the
captured timestamp. -/
theorem c1_valid_input_stores_and_returns_200 (env : HandlerEnv) (event : Event)
    (kvs : List (String × JValue)) (vn ve vm : JValue)
    (hb : loadsOfBody event.body = Except.ok (JValue.obj kvs))
    (hn : dictGetLast kvs "name" = some vn)
    (he : dictGetLast kvs "email" = some ve)
    (hm : dictGetLast kvs "message" = some vm)
    (hput : env.putResult = Except.ok ()) :
    lambda_handler env event =
      ⟨response200,
       [[("id", JValue.str env.submission_id), ("name", vn), ("email", ve),
         ("message", vm), ("submittedAt", JValue.str env.timestamp)]]⟩ :=
  lambda_handler_success env event kvs vn ve vm hb hn he hm hput

/-- Witness for C1 at a concrete valid request. -/
theorem c1_witness :
    lambda_handler ⟨"11111111-1111-1111-1111-111111111111", "2024-05-01T12:00:00", Except.ok ()⟩
        ⟨BodyField.pyStr "\x7b\"name\": \"Ana\", \"email\": \"a@x.com\", \"message\": \"hi\"\x7d", []⟩ =
      ⟨response200,
       [[("id", JValue.str "11111111-1111-1111-1111-111111111111"), ("name", JValue.str "Ana"),
         ("email", JValue.str "a@x.com"), ("message", JValue.str "hi"),
         ("submittedAt", JValue.str "2024-05-01T12:00:00")]]⟩ :=
  c1_valid_input_stores_and_returns_200 _ _
    [("name", JValue.str "Ana"), ("email", JValue.str "a@x.com"), ("message", JValue.str "hi")]
    (JValue.str "Ana") (JValue.str "a@x.com") (JValue.str "hi") rfl rfl rfl rfl rfl

/-- C2: for every request whose body parses to a JSON object missing at
least one of the keys `name`, `email`, `message`, the handler returns
status 400 with the fixed missing-fields body and performs no store
write. -/
theorem c2_missing_field_returns_400_no_write (env : HandlerEnv) (event : Event)
    (kvs : List (String × JValue))
    (hb : loadsOfBody event.body = Except.ok (JValue.obj kvs))
    (hmiss : hasKey kvs "name" = false ∨ hasKey kvs "email" = false ∨
             hasKey kvs "message" = false) :
    lambda_handler env event = ⟨response400, []⟩ := by
  have hall : allFieldsIn required_fields (JValue.obj kvs) = Except.ok false := by
    cases h1 : hasKey kvs "name" <;> cases h2 : hasKey kvs "email" <;>
      cases h3 : hasKey kvs "message" <;>
      simp [allFieldsIn, required_fields, pyIn, h1, h2, h3] <;>
      simp [h1, h2, h3] at hmiss
  simp [lambda_handler, hb, hall]

/-- Witness for C2: a body with `name` and `email` but no `message`. -/
theorem c2_witness :
    lambda_handler ⟨"u", "t", Except.ok ()⟩
        ⟨BodyField.pyStr "\x7b\"name\": \"Ana\", \"email\": \"a@x.com\"\x7d", []⟩ =
      ⟨response400, []⟩ :=
  c2_missing_field_returns_400_no_write _ _
    [("name", JValue.str "Ana"), ("email", JValue.str "a@x.com")]
    rfl (Or.inr (Or.inr rfl))

/-- C3: whenever any step of the handler raises — the parse of a present
body, the membership check, the field extraction, or the store write —
the response is exactly the fixed 500 response (status, headers and body),
so no detail of the failure appears in the response. -/
theorem c3_any_exception_returns_fixed_500 (env : HandlerEnv) (event : Event)
    (h : handlerRaises env event = true) :
    (lambda_handler env event).response = response500 := by
  unfold handlerRaises at h
  unfold lambda_handler
  cases hb : loadsOfBody event.body with
  | error e => simp [hb]
  | ok body =>
    simp only [hb] at h ⊢
    cases ha : allFieldsIn required_fields body with
    | error e => simp [ha]
    | ok b =>
      simp only [ha] at h ⊢
      cases b with
      | false => simp at h
      | true =>
        cases hsn : pySubscript body "name" with
        | error e => simp [hsn]
        | ok vn =>
          simp only [hsn] at h ⊢
          cases hse : pySubscript body "email" with
          | error e => simp [hse]
          | ok ve =>
            simp only [hse] at h ⊢
            cases hsm : pySubscript body "message" with
            | error e => simp [hsm]
            | ok vm =>
              simp only [hsm] at h ⊢
              cases hp : env.putResult with
              | error e => simp [hp]
              | ok u =>
                simp only [hp] at h
                simp at h

/-- Witness for C3: a present body that is not valid JSON. -/
theorem c3_witness :
    (lambda_handler ⟨"u", "t", Except.ok ()⟩ ⟨BodyField.pyStr "oops", []⟩).response =
      response500 :=
  c3_any_exception_returns_fixed_500 _ _ rfl

/-- C4: a request with no `body` field behaves exactly as one whose body
is the empty-object literal: the handler returns the fixed 400 response
and performs no store write. -/
theorem c4_absent_body_like_empty_object (env : HandlerEnv) (rest : List (String × String)) :
    lambda_handler env ⟨BodyField.absent, rest⟩ =
      lambda_handler env ⟨BodyField.pyStr "\x7b\x7d", rest⟩ ∧
    lambda_handler env ⟨BodyField.absent, rest⟩ = ⟨response400, []⟩ :=
  ⟨rfl, rfl⟩

/-- C5: on every path — 200, 400 or 500 — the response includes both the
`Content-Type: application/json` and `Access-Control-Allow-Origin: *`
headers. -/
theorem c5_every_response_has_cors_and_content_type (env : HandlerEnv) (event : Event) :
    ("Content-Type", "application/json") ∈ (lambda_handler env event).response.headers ∧
    ("Access-Control-Allow-Origin", "*") ∈ (lambda_handler env event).response.headers := by
  rw [lambda_handler_headers]
  exact ⟨by simp [stdHeaders], by simp [stdHeaders]⟩

/-- C6: validation checks presence only: a body whose three required keys
hold empty strings passes validation, and when the write succeeds the
handler returns 200 and stores the record with those empty strings. -/
theorem c6_empty_strings_pass_validation (env : HandlerEnv) (event : Event)
    (kvs : List (String × JValue))
    (hb : loadsOfBody event.body = Except.ok (JValue.obj kvs))
    (hn : dictGetLast kvs "name" = some (JValue.str ""))
    (he : dictGetLast kvs "email" = some (JValue.str ""))
    (hm : dictGetLast kvs "message" = some (JValue.str ""))
    (hput : env.putResult = Except.ok ()) :
    (lambda_handler env event).response.statusCode = 200 ∧
    (lambda_handler env event).writes =
      [[("id", JValue.str env.submission_id), ("name", JValue.str ""),
        ("email", JValue.str ""), ("message", JValue.str ""),
        ("submittedAt", JValue.str env.timestamp)]] := by
  rw [lambda_handler_success env event kvs _ _ _ hb hn he hm hput]
  exact ⟨rfl, rfl⟩

/-- Witness for C6: all three fields present and empty. -/
theorem c6_witness :
    (lambda_handler ⟨"u", "t", Except.ok ()⟩
        ⟨BodyField.pyStr "\x7b\"name\": \"\", \"email\": \"\", \"message\": \"\"\x7d", []⟩).response.statusCode =
      200 ∧
    (lambda_handler ⟨"u", "t", Except.ok ()⟩
        ⟨BodyField.pyStr "\x7b\"name\": \"\", \"email\": \"\", \"message\": \"\"\x7d", []⟩).writes =
      [[("id", JValue.str "u"), ("name", JValue.str ""), ("email", JValue.str ""),
        ("message", JValue.str ""), ("submittedAt", JValue.str "t")]] :=
  c6_empty_strings_pass_validation _ _
    [("name", JValue.str ""), ("email", JValue.str ""), ("message", JValue.str "")]
    rfl rfl rfl rfl rfl

/-- C7: extra keys in the body — a caller-supplied `id` or `submittedAt`
included — do not cause rejection and are never persisted: on the success
path the single stored item has exactly the five attributes `id`, `name`,
`email`, `message`, `submittedAt`, with `id` the generated identifier and
`submittedAt` the captured timestamp, whatever the caller supplied. -/
theorem c7_extra_keys_ignored_item_has_five_attributes (env : HandlerEnv) (event : Event)
    (kvs : List (String × JValue)) (vn ve vm : JValue)
    (hb : loadsOfBody event.body = Except.ok (JValue.obj kvs))
    (hn : dictGetLast kvs "name" = some vn)
    (he : dictGetLast kvs "email" = some ve)
    (hm : dictGetLast kvs "message" = some vm)
    (hput : env.putResult = Except.ok ()) :
    (lambda_handler env event).response.statusCode = 200 ∧
    ∃ item, (lambda_handler env event).writes = [item] ∧
      item.map Prod.fst = ["id", "name", "email", "message", "submittedAt"] ∧
      dictGetLast item "id" = some (JValue.str env.submission_id) ∧
      dictGetLast item "submittedAt" = some (JValue.str env.timestamp) := by
  rw [lambda_handler_success env event kvs vn ve vm hb hn he hm hput]
  refine ⟨rfl, _, rfl, rfl, ?_, ?_⟩ <;> simp [dictGetLast]

/-- Witness for C7: the caller supplies its own `id` and `submittedAt`;
the stored item carries the handler's values instead. -/
theorem c7_witness :
    (lambda_handler ⟨"real-id", "real-time", Except.ok ()⟩
        ⟨BodyField.pyStr "\x7b\"name\": \"Ana\", \"email\": \"a@x.com\", \"message\": \"hi\", \"id\": \"fake\", \"submittedAt\": \"1999\"\x7d", []⟩).response.statusCode =
      200 ∧
    ∃ item,
      (lambda_handler ⟨"real-id", "real-time", Except.ok ()⟩
          ⟨BodyField.pyStr "\x7b\"name\": \"Ana\", \"email\": \"a@x.com\", \"message\": \"hi\", \"id\": \"fake\", \"submittedAt\": \"1999\"\x7d", []⟩).writes =
        [item] ∧
      item.map Prod.fst = ["id", "name", "email", "message", "submittedAt"] ∧
      dictGetLast item "id" = some (JValue.str "real-id") ∧
      dictGetLast item "submittedAt" = some (JValue.str "real-time") :=
  c7_extra_keys_ignored_item_has_five_attributes _ _
    [("name", JValue.str "Ana"), ("email", JValue.str "a@x.com"), ("message", JValue.str "hi"),
     ("id", JValue.str "fake"), ("submittedAt", JValue.str "1999")]
    (JValue.str "Ana") (JValue.str "a@x.com") (JValue.str "hi") rfl rfl rfl rfl rfl

/-- C8: a body parsing to a non-object JSON value never yields 200 and
never writes; in particular the array `["name", "email", "message"]`
passes the membership check but fails extraction, giving the 500
response rather than 400. -/
theorem c8_non_object_body_never_200_never_writes (env : HandlerEnv) (event : Event)
    (v : JValue) (hb : loadsOfBody event.body = Except.ok v)
    (hno : ∀ ms, v ≠ JValue.obj ms) :
    ((lambda_handler env event).response.statusCode ≠ 200 ∧
     (lambda_handler env event).writes = []) ∧
    (v = JValue.arr [JValue.str "name", JValue.str "email", JValue.str "message"] →
     (lambda_handler env event).response = response500) := by
  constructor
  · unfold lambda_handler
    cases ha : allFieldsIn required_fields v with
    | error e => simp [hb, ha, response500]
    | ok b =>
      cases b with
      | false => simp [hb, ha, response400]
      | true => simp [hb, ha, pySubscript_nonobj hno, response500]
  · intro hv
    subst hv
    unfold lambda_handler
    rw [hb]
    rfl

/-- Witness for C8 at the array `["name", "email", "message"]`. -/
theorem c8_witness :
    (((lambda_handler ⟨"u", "t", Except.ok ()⟩
          ⟨BodyField.pyStr "[\"name\", \"email\", \"message\"]", []⟩).response.statusCode ≠ 200 ∧
      (lambda_handler ⟨"u", "t", Except.ok ()⟩
          ⟨BodyField.pyStr "[\"name\", \"email\", \"message\"]", []⟩).writes = []) ∧
     (JValue.arr [JValue.str "name", JValue.str "email", JValue.str "message"] =
        JValue.arr [JValue.str "name", JValue.str "email", JValue.str "message"] →
      (lambda_handler ⟨"u", "t", Except.ok ()⟩
          ⟨BodyField.pyStr "[\"name\", \"email\", \"message\"]", []⟩).response = response500)) :=
  c8_non_object_body_never_200_never_writes _ _
    (JValue.arr [JValue.str "name", JValue.str "email", JValue.str "message"])
    rfl (fun _ h => nomatch h)

/-- C9: a present `body` field holding `None` makes `json.loads` raise, so
the handler returns the fixed 500 response and performs no store write —
unlike an absent `body` field, which yields 400. -/
theorem c9_null_body_yields_500_unlike_absent (env : HandlerEnv)
    (rest : List (String × String)) :
    lambda_handler env ⟨BodyField.pyNone, rest⟩ = ⟨response500, []⟩ ∧
    (lambda_handler env ⟨BodyField.absent, rest⟩).response.statusCode = 400 :=
  ⟨rfl, rfl⟩

/-- C10: the response depends only on the event's `body` field together
with the per-invocation environment (generated id, captured timestamp,
store outcome): two events with equal `body` fields produce identical
responses under the same environment, whatever their other fields. -/
theorem c10_response_depends_only_on_body_and_env (env : HandlerEnv) (b : BodyField)
    (r1 r2 : List (String × String)) :
    (lambda_handler env ⟨b, r1⟩).response = (lambda_handler env ⟨b, r2⟩).response :=
  rfl
